import Mathlib

/-!
Verification of the SOP-Generalization rules engine.

This file shallowly embeds the core of the repository
(`src/Engine/src/rules_engine/evaluator.py`, `engine.py`, `legacy_adapter.py`,
`plugins/registry.py`, `scripts/migrate_ruleset_v1_to_v2.py`) in Lean and
proves or refutes the specification claims about it.

Modelling conventions:
- Python floats are modelled as rationals (`ℚ`).  All numeric computations the
  claims exercise stay far from the rounding granularity of IEEE doubles, so
  rational arithmetic is an exact model of the behaviour under scrutiny.
- Python `round` is round-half-to-even (`pyRound`); `int(...)` truncates toward
  zero (`pyInt`).
- Raising an exception is modelled by `Except.error`; the error message is kept
  close to the source but its exact text is not load-bearing.
- Python `dict`s are modelled as association lists in insertion order
  (`List (String × _)` with `List.lookup`).
-/

deriving instance DecidableEq for Except

namespace RulesEngine

/-- Python `round`: round half to even (banker's rounding), as used by
`int(round(...))` in `engine.py` and `evaluator.py`. -/
def pyRound (q : ℚ) : ℤ :=
  let f := ⌊q⌋
  let r := q - (f : ℚ)
  if r < 1/2 then f
  else if r > 1/2 then f + 1
  else if 2 ∣ f then f else f + 1

/-- Python `int(...)` applied to a number: truncation toward zero. -/
def pyInt (q : ℚ) : ℤ :=
  if 0 ≤ q then ⌊q⌋ else ⌈q⌉

/-- Python `xs[-n:]` for `n ≥ 1`: the last `n` elements (whole list if `n`
exceeds the length). -/
def takeLast (xs : List ℚ) (n : ℕ) : List ℚ :=
  xs.drop (xs.length - n)

/-- Python `list(range(start, stop + 1))`: the inclusive integer range. -/
def rangeIncl (start stop : ℤ) : List ℤ :=
  (List.range (stop + 1 - start).toNat).map (fun i : ℕ => start + (i : ℤ))

/-- Python `d[k] = v` on a string-keyed dict modelled as an association list:
replace in place if the key exists, else append. -/
def upsert {α : Type} (m : List (String × α)) (k : String) (v : α) :
    List (String × α) :=
  if m.any (fun p => p.1 = k) then
    m.map (fun p => if p.1 = k then (k, v) else p)
  else m ++ [(k, v)]

/-- Sequential evaluation of a Python `for` loop that can raise: stop at the
first exception. -/
def mapME {α β : Type} (f : α → Except String β) : List α → Except String (List β)
  | [] => .ok []
  | x :: xs => do
    let y ← f x
    let ys ← mapME f xs
    pure (y :: ys)

/-- Python `str.strip()`: drop leading and trailing whitespace.  (Defined on
the character list so that it reduces definitionally; `String.trim` is
iterator-based and does not.) -/
def pyStrip (s : String) : String :=
  String.mk (((s.data.dropWhile Char.isWhitespace).reverse.dropWhile
    Char.isWhitespace).reverse)

/-- A JSON number or a JSON array of numbers, the two shapes a condition's
`value` field takes in the rule files. -/
inductive JVal where
  | num (q : ℚ)
  | arr (xs : List ℚ)
  deriving DecidableEq, Repr

/-- A condition node (`cond : Dict` in `evaluator.py`).  `ctype` is the Python
key `"type"` (a Lean keyword).  Absent keys are `none` / default values. -/
structure Cond where
  id : String := ""
  ctype : String := ""
  metric : Option String := none
  op : Option String := none
  value : Option JVal := none
  tolerance : Option ℚ := none
  abs_val : Bool := false
  event : Option String := none
  window_frames : Option ℤ := none
  window_ms : Option (List ℚ) := none
  joints : List ℤ := []
  pair : List ℤ := []
  logic : Option String := none
  conditions : List String := []
  deriving DecidableEq, Repr

/-- The observed value stored in a `ConditionResult` (number, boolean, event
marker, or the per-reference pass map of a composite condition). -/
inductive RVal where
  | num (q : ℚ)
  | bool (b : Bool)
  | event (e : String)
  | passMap (m : List (String × Bool))
  deriving DecidableEq, Repr

/-- `ConditionResult` from `evaluator.py`. -/
structure ConditionResult where
  id : String
  passed : Bool
  value : RVal
  deriving DecidableEq, Repr

/-- An entry of `context["events"]`: either a bare frame index, a structured
value carrying a `frame` field, a structured value carrying a `ts_ms` field,
or a structured value with neither (which `engine.py` rejects). -/
inductive EventVal where
  | bare (q : ℚ)
  | frameField (q : ℚ)
  | tsField (ms : ℚ)
  | badDict
  deriving DecidableEq, Repr

/-- The `context` dict threaded through evaluation. -/
structure Ctx where
  events : List (String × EventVal) := []
  expected_fps : Option ℚ := none
  deriving DecidableEq, Repr

/-- `_cmp` from `evaluator.py`. -/
def cmpOp (op : String) (lhs rhs : ℚ) : Except String Bool :=
  if op = "gte" then .ok (decide (lhs ≥ rhs))
  else if op = "gt" then .ok (decide (lhs > rhs))
  else if op = "lte" then .ok (decide (lhs ≤ rhs))
  else if op = "lt" then .ok (decide (lhs < rhs))
  else if op = "eq" then .ok (decide (lhs = rhs))
  else if op = "neq" then .ok (decide (lhs ≠ rhs))
  else .error ("Unsupported op: " ++ op)

/-- `_as_number` from `evaluator.py`: numbers pass through, anything else is a
`TypeError`. -/
def asNumber : JVal → Except String ℚ
  | .num q => .ok q
  | .arr _ => .error "Expected number, got list"

/-- `_evaluate_numeric_condition` from `evaluator.py` (lines 116-144).
Faithful points: the tolerance defaults to 0; `abs_val` takes the absolute
value of the observed metric first; `range`-typed conditions widen both ends
by the tolerance; `gte`/`gt` compare against `target - tolerance`,
`lte`/`lt` against `target + tolerance`; `eq` accepts
`|lhs - target| ≤ tolerance` and `neq` its complement; the `between` branch
is unreachable without a `TypeError` because line 131 already coerced the
value to a number and line 141 then subscripts that number. -/
def evaluateNumericCondition (lhs0 : ℚ) (cond : Cond) : Except String Bool :=
  let tol := cond.tolerance.getD 0
  let lhs := if cond.abs_val then |lhs0| else lhs0
  match cond.op with
  | none => .error "KeyError: op"
  | some op =>
    if cond.ctype = "range" then
      match cond.value with
      | some (.arr [lower, upper]) =>
        .ok (decide (lower - tol ≤ lhs ∧ lhs ≤ upper + tol))
      | some _ => .error "ValueError: cannot unpack condition value"
      | none => .error "KeyError: value"
    else
      match cond.value with
      | none => .error "KeyError: value"
      | some v =>
        match asNumber v with
        | .error e => .error e
        | .ok target =>
          if op = "gte" ∨ op = "gt" then cmpOp op lhs (target - tol)
          else if op = "lte" ∨ op = "lt" then cmpOp op lhs (target + tol)
          else if op = "eq" then .ok (decide (|lhs - target| ≤ tol))
          else if op = "neq" then .ok (decide (|lhs - target| > tol))
          else if op = "between" then
            .error "TypeError: float object is not subscriptable"
          else cmpOp op lhs target

/-- `_windowed_series` from `evaluator.py` (lines 58-80): `window_frames`
keeps the last `wf` samples (must be ≥ 1); `window_ms` converts the window
duration to a sample count via `expected_fps` (minimum 2) and keeps that many
from the end; fewer than 2 remaining samples is an error. -/
def windowedSeries (series : List ℚ) (cond : Cond) (context : Ctx) :
    Except String (List ℚ) := do
  let r1 ← match cond.window_frames with
    | none => Except.ok series
    | some wf =>
      if wf < 1 then Except.error "window_frames must be >= 1"
      else Except.ok (takeLast series wf.toNat)
  let r2 ← match cond.window_ms with
    | none => Except.ok r1
    | some [w0, w1] =>
      match context.expected_fps with
      | none => Except.error "expected_fps is required to evaluate trend.window_ms."
      | some fps =>
        let durationMs := |w1 - w0|
        let count := max 2 (pyRound (durationMs * fps / 1000))
        Except.ok (takeLast r1 count.toNat)
    | some _ => Except.error "window_ms must be a 2-item list"
  if r2.length < 2 then .error "Trend condition requires at least 2 samples."
  else .ok r2

/-- `evaluate_condition` from `evaluator.py` (lines 147-234), as invoked in
this repository.  The Python function also accepts `student_data` and
`coach_data` skeleton arrays, but its single call site (`engine.py:105`,
`evaluator.evaluate_condition(cond, metrics)`) always leaves them `None`, so
they are omitted here and the `angle`/`distance` branches reduce to the
`ValueError` that `_angle_series`/`_distance_series` raise on `None` data.
Metric values are numbers (the plugins return floats); `boolean` conditions
apply Python `bool(...)`, i.e. non-zero means true. -/
def evaluateCondition (cond : Cond) (metrics : List (String × ℚ))
    (metricSeries : List (String × List ℚ) := [])
    (context : Ctx := {}) : Except String ConditionResult :=
  let ctype := cond.ctype
  let condId := cond.id
  if ctype = "threshold" ∨ ctype = "range" ∨ ctype = "boolean" then
    match cond.metric.bind (fun m => metrics.lookup m) with
    | none => .error "KeyError: metric not computed for condition"
    | some val =>
      if ctype = "boolean" then
        match cond.op with
        | none => .error "KeyError: op"
        | some op =>
          let b := decide (val ≠ 0)
          let passed := if op = "is_true" then b else !b
          .ok { id := condId, passed := passed, value := .bool b }
      else
        match evaluateNumericCondition val cond with
        | .error e => .error e
        | .ok passed => .ok { id := condId, passed := passed, value := .num val }
  else if ctype = "event_exists" then
    let eventName := pyStrip (cond.event.getD "")
    if eventName = "" then .error "ValueError: condition requires a non-empty event."
    else
      match context.events.lookup eventName with
      | none => .error "KeyError: condition requires missing event"
      | some _ => .ok { id := condId, passed := true, value := .event eventName }
  else if ctype = "trend" then
    match cond.metric with
    | none => .error "ValueError: condition requires metric."
    | some m =>
      if m = "" then .error "ValueError: condition requires metric."
      else
        match metricSeries.lookup m with
        | none => .error "KeyError: metric series not computed for condition."
        | some xs =>
          match windowedSeries xs cond context with
          | .error e => .error e
          | .ok w =>
            let delta := w.getLastD 0 - w.headD 0
            match cond.op with
            | some "increasing" =>
              .ok { id := condId, passed := decide (delta > 0), value := .num delta }
            | some "decreasing" =>
              .ok { id := condId, passed := decide (delta < 0), value := .num delta }
            | _ => .error "ValueError: unsupported trend op"
  else if ctype = "angle" then
    .error "Angle condition requires rule frame skeleton data."
  else if ctype = "distance" then
    .error "Distance condition requires rule frame skeleton data."
  else if ctype = "composite" then
    .error "NotImplementedError: composite condition should be handled at rule level."
  else .error "NotImplementedError: condition type not implemented."

/-- `evaluate_composite_condition` from `evaluator.py` (lines 237-270):
combines previously evaluated sibling results via `all`/`any`/`none`; empty
reference list and unresolved references are errors. -/
def evaluateCompositeCondition (cond : Cond)
    (condResultsById : List (String × ConditionResult)) :
    Except String ConditionResult :=
  let condId := cond.id
  let refs := cond.conditions
  if refs = [] then
    .error "ValueError: composite condition requires non-empty conditions."
  else
    let missing := refs.filter (fun r => (condResultsById.lookup r).isNone)
    let results := (refs.filterMap (fun r => condResultsById.lookup r)).map
      (fun c => c.passed)
    if missing ≠ [] then
      .error "KeyError: composite condition references missing conditions"
    else
      let value := RVal.passMap (refs.map (fun r =>
        (r, (((condResultsById.lookup r).map (fun c => c.passed)).getD false))))
      match cond.logic with
      | some "all" => .ok { id := condId, passed := results.all id, value := value }
      | some "any" => .ok { id := condId, passed := results.any id, value := value }
      | some "none" => .ok { id := condId, passed := !(results.any id), value := value }
      | _ => .error "ValueError: composite condition has unsupported logic"

/-- The `score` configuration dict of a rule. -/
structure ScoreCfg where
  mode : Option String := none
  pass_score : Option ℚ := none
  max_score : Option ℚ := none
  weights : List (String × ℚ) := []
  deriving DecidableEq, Repr

/-- `aggregate_score` from `evaluator.py` (lines 273-295).  Note the `average`
branch returns `max_score * passed / total` as an (unrounded) number; nothing
in this function truncates.  In `weighted`, Python `sum(...) or 1.0` replaces
a zero total weight by 1. -/
def aggregateScore (scoreCfg : ScoreCfg) (condResults : List ConditionResult) : ℚ :=
  let mode := scoreCfg.mode.getD "all-or-nothing"
  let passScore := scoreCfg.pass_score.getD 1
  let maxScore := scoreCfg.max_score.getD 1
  if condResults = [] then maxScore
  else if mode = "all-or-nothing" then
    if condResults.all (fun c => c.passed) then maxScore else 0
  else if mode = "average" then
    maxScore * (condResults.countP (fun c => c.passed) : ℚ) / (condResults.length : ℚ)
  else if mode = "weighted" then
    let sumW := (scoreCfg.weights.map (fun p => p.2)).sum
    let totalW := if sumW = 0 then 1 else sumW
    let passedW := ((condResults.filter (fun c => c.passed)).map
      (fun c => (scoreCfg.weights.lookup c.id).getD 0)).sum
    maxScore * passedW / totalW
  else if condResults.all (fun c => c.passed) then passScore else 0

/-- A feedback entry of a rule. -/
structure Feedback where
  condition_ids : List String := []
  message : String := ""
  deriving DecidableEq, Repr

/-- A rule (`rules[i]` in the rule set). -/
structure Rule where
  id : String := ""
  phase : String := ""
  label : Option String := none
  conditions : List Cond := []
  score : ScoreCfg := {}
  feedback : List Feedback := []
  deriving DecidableEq, Repr

/-- `select_feedback` from `evaluator.py` (lines 298-309): keep every feedback
entry at least one of whose referenced condition ids failed. -/
def selectFeedback (rule : Rule) (condResults : List ConditionResult) : List Feedback :=
  let failedIds := (condResults.filter (fun c => !c.passed)).map (fun c => c.id)
  rule.feedback.filter (fun fb => fb.condition_ids.any (fun cid => failedIds.contains cid))

/-- `classify_step` from `evaluator.py` (lines 312-323). -/
def classifyStep (ruleResults : List (String × Bool)) : String :=
  if ruleResults = [] then "mid"
  else if ruleResults.all (fun p => p.2) then "correct"
  else if ruleResults.all (fun p => !p.2) then "wrong"
  else "mid"

/-- The `event_window` object of a phase. -/
structure EventWindow where
  event : Option String := none
  window_ms : Option (List ℚ) := none
  deriving DecidableEq, Repr

/-- A phase of the rule set.  Exactly one of `frame_range` / `event_window`
is expected; `legacy_step_name` feeds the legacy adapter. -/
structure Phase where
  id : String := ""
  frame_range : Option (ℤ × ℤ) := none
  event_window : Option EventWindow := none
  legacy_step_name : Option String := none
  deriving DecidableEq, Repr

/-- The rule set fields the engine reads (`phases`, `rules`,
`inputs.expected_fps`). -/
structure RuleSet where
  phases : List Phase := []
  rules : List Rule := []
  expected_fps : Option ℚ := none
  deriving DecidableEq, Repr

/-- `RuleEngine._ms_to_frame_offset` (engine.py:52-53):
`int(round(ms * fps / 1000.0))`. -/
def msToFrameOffset (ms fps : ℚ) : ℤ :=
  pyRound (ms * fps / 1000)

/-- `RuleEngine._resolve_event_frame` (engine.py:55-69): an event value is a
bare frame number (truncated by `int`), a dict with a `frame` field, or a dict
with a `ts_ms` field converted via `int(round(ts_ms * fps / 1000))`. -/
def resolveEventFrame (eventName : String) (context : Ctx) (fps : ℚ) :
    Except String ℤ :=
  match context.events.lookup eventName with
  | none => .error "KeyError: event not found in context events"
  | some (.frameField q) => .ok (pyInt q)
  | some (.tsField ms) => .ok (pyRound (ms * fps / 1000))
  | some .badDict => .error "ValueError: unsupported event payload"
  | some (.bare q) => .ok (pyInt q)

/-- `RuleEngine._phase_frame_range` (engine.py:71-100).  Explicit ranges are
returned inclusively; event windows resolve the event frame, add the two
rounded millisecond offsets, swap a reversed pair, clamp the start below by 0
and the end above by `maxFrame`, and return the inclusive range. -/
def phaseFrameRange (ruleSet : RuleSet) (phase : Phase) (context : Ctx)
    (maxFrame : ℤ) : Except String (List ℤ) :=
  match phase.frame_range with
  | some (start, stop) => .ok (rangeIncl start stop)
  | none =>
    match phase.event_window with
    | none => .error "ValueError: phase must define either frame_range or event_window."
    | some ew =>
      let eventName := ew.event.getD ""
      if eventName = "" then .error "ValueError: phase.event_window.event is required."
      else
        match ew.window_ms with
        | some [w0, w1] =>
          match ruleSet.expected_fps with
          | none => .error "ValueError: inputs.expected_fps is required to resolve event_window."
          | some fps =>
            match resolveEventFrame eventName context fps with
            | .error e => .error e
            | .ok eventFrame =>
              let start := eventFrame + msToFrameOffset w0 fps
              let stop := eventFrame + msToFrameOffset w1 fps
              let p := if start > stop then (stop, start) else (start, stop)
              let start2 := max 0 p.1
              let stop2 := min p.2 maxFrame
              .ok (rangeIncl start2 stop2)
        | _ => .error "ValueError: phase.event_window.window_ms must be a 2-item array."

/-- The per-rule result dict built by `RuleEngine._evaluate_rule`
(engine.py:112-126). -/
structure RuleResult where
  rule_id : String
  label : Option String
  passed : Bool
  score : ℚ
  conditions : List ConditionResult
  feedback : List Feedback
  deriving DecidableEq, Repr

/-- `RuleEngine._evaluate_rule` (engine.py:102-126): every condition —
composite included — goes through `evaluator.evaluate_condition(cond,
metrics)` with only the scalar metrics; the score comes from
`aggregate_score`, feedback from `select_feedback`, and `passed` is the
conjunction of the condition verdicts (vacuously true when there are none,
since Python `all([])` is `True` and the guard keeps `True` for the empty
list). -/
def evaluateRule (rule : Rule) (metrics : List (String × ℚ)) :
    Except String RuleResult := do
  let condResults ← mapME (fun c => evaluateCondition c metrics) rule.conditions
  let ruleScore := aggregateScore rule.score condResults
  let fb := selectFeedback rule condResults
  let passed := condResults.all (fun c => c.passed)
  pure { rule_id := rule.id, label := rule.label, passed := passed,
         score := ruleScore, conditions := condResults, feedback := fb }

/-- The per-phase result dict built by `RuleEngine.analyze`
(engine.py:174-180).  The Python `"Rules"` dict keyed by rule id is kept as a
list in evaluation order (rule ids are unique by the validator invariant). -/
structure PhaseOut where
  ruleResults : List RuleResult
  score : ℕ
  classification : String
  metrics : List (String × ℚ)
  frameRange : List ℤ
  deriving DecidableEq, Repr

/-- The step-score computation of `RuleEngine.analyze` (engine.py:169-170):
map pass→100, fail→30, and take `int(sum / len)`; with no applicable rule the
score is 100.  `int(sum/len)` on these non-negative values is floor division,
modelled by `ℕ` division (the float quotient is exact to within `1e-14`,
far finer than the `1/len` gap to the next integer). -/
def stepScorePct (ruleResults : List RuleResult) : ℕ :=
  let legacy := ruleResults.map (fun rr => if rr.passed then (100 : ℕ) else 30)
  if legacy = [] then 100 else legacy.sum / legacy.length

/-- `RuleEngine.analyze` (engine.py:128-202), with its external collaborators
abstracted: the preprocessing pipeline and `su.extract_skeleton_data` are
outside the core (spec §1), so the preprocessed sequences enter only through
their lengths (`nStudent`, `nCoach`, giving `max_frame`), and
`plugin.compute_metrics(phase_id, student_data, coach_data)` enters as the
function `computeMetrics` of the phase id (the extracted data is a function
of the phase as well).  Timing/profiling instrumentation is pure side
observation and is not modelled.  The result dict keyed by phase id is kept
as a list in phase-declaration order. -/
def analyze (ruleSet : RuleSet) (computeMetrics : String → List (String × ℚ))
    (context : Ctx) (nStudent nCoach : ℕ) :
    Except String (List (String × PhaseOut)) :=
  let maxFrame : ℤ := min ((nStudent : ℤ) - 1) ((nCoach : ℤ) - 1)
  mapME (fun phase => do
    let frameRange ← phaseFrameRange ruleSet phase context maxFrame
    let metrics := computeMetrics phase.id
    let phaseRules := ruleSet.rules.filter (fun r => r.phase = phase.id)
    let ruleResults ← mapME (fun r => evaluateRule r metrics) phaseRules
    let score := stepScorePct ruleResults
    let classification := classifyStep
      (ruleResults.map (fun rr => (rr.rule_id, rr.passed)))
    pure (phase.id,
      { ruleResults := ruleResults, score := score,
        classification := classification, metrics := metrics,
        frameRange := frameRange })) ruleSet.phases

/-- `_legacy_step_name` from `legacy_adapter.py` (lines 7-8): the phase's
`legacy_step_name` if present and non-empty (Python `or`), else
`Step<index>`. -/
def legacyStepName (phase : Phase) (idx : ℕ) : String :=
  match phase.legacy_step_name with
  | some s => if s = "" then "Step" ++ toString idx else s
  | none => "Step" ++ toString idx

/-- `build_step_ranges` from `legacy_adapter.py` (lines 11-25), with the
1-based `enumerate(phases, start=1)` index threaded through: phases with a
falsy id or without a `frame_range` are skipped (the index still advances),
kept phases contribute `step_ranges[name] = range(start, end+1)` and
`phase_id_to_step[id] = name`. -/
def buildStepRangesGo (phases : List Phase) (idx : ℕ)
    (stepRanges : List (String × List ℤ)) (phaseToStep : List (String × String)) :
    List (String × List ℤ) × List (String × String) :=
  match phases with
  | [] => (stepRanges, phaseToStep)
  | p :: rest =>
    if p.id = "" then buildStepRangesGo rest (idx + 1) stepRanges phaseToStep
    else
      match p.frame_range with
      | none => buildStepRangesGo rest (idx + 1) stepRanges phaseToStep
      | some (start, stop) =>
        let name := legacyStepName p idx
        buildStepRangesGo rest (idx + 1)
          (upsert stepRanges name (rangeIncl start stop))
          (upsert phaseToStep p.id name)

/-- `build_step_ranges(rule_set)` entry point. -/
def buildStepRanges (ruleSet : RuleSet) :
    List (String × List ℤ) × List (String × String) :=
  buildStepRangesGo ruleSet.phases 1 [] []

/-- A schema-1 rule definition, as read by
`scripts/migrate_ruleset_v1_to_v2.py`.  The migration copies `metadata`,
`inputs`, `globals`, `phases` and `rules` verbatim without inspecting them,
so their carrier types here are arbitrary stand-ins for JSON payloads. -/
structure RuleSetV1 where
  schema_version : Option String := none
  rule_set_id : Option String := none
  sport : Option String := none
  sport_version : Option String := none
  metadata : List (String × String) := []
  inputs : List (String × String) := []
  globals : List (String × String) := []
  phases : List String := []
  rules : List String := []
  deriving DecidableEq, Repr

/-- The `metric_profile` object written by the migration (`ptype` is the
Python key `"type"`, a Lean keyword). -/
structure MetricProfile where
  id : String
  ptype : String
  metric_space : String
  preset_id : Option String := none
  deriving DecidableEq, Repr

/-- A schema-2 rule definition as produced by the migration. -/
structure RuleSetV2 where
  schema_version : String
  rule_set_id : String
  metric_profile : MetricProfile
  metadata : List (String × String)
  inputs : List (String × String)
  globals : List (String × String)
  phases : List String
  rules : List String
  sport : Option String := none
  sport_version : Option String := none
  deriving DecidableEq, Repr

/-- Python `str.isdigit()` restricted to ASCII: non-empty and all digits.
(Char-list based so that it reduces definitionally.) -/
def isDigits (s : String) : Bool :=
  !s.data.isEmpty && s.data.all Char.isDigit

/-- Python `version.split(".")` on the character list (worker). -/
def splitDotGo : List Char → List Char → List String
  | [], acc => [String.mk acc.reverse]
  | c :: cs, acc =>
    if c = Char.ofNat 46 then String.mk acc.reverse :: splitDotGo cs []
    else splitDotGo cs (c :: acc)

/-- Python `version.split(".")`. -/
def pySplitDot (s : String) : List String :=
  splitDotGo s.data []

/-- Python `int(...)` on an all-digit string. -/
def digitsVal (s : String) : ℕ :=
  s.data.foldl (fun n c => 10 * n + (c.toNat - 48)) 0

/-- `schema_major` from `scripts/migrate_ruleset_v1_to_v2.py` (lines 19-23):
the version must split on `.` into exactly three all-digit parts, else
`ValueError`; returns the integer major part. -/
def schemaMajor (version : String) : Except String ℤ :=
  match pySplitDot version with
  | [a, b, c] =>
    if isDigits a && isDigits b && isDigits c then .ok ((digitsVal a : ℕ) : ℤ)
    else .error "ValueError: invalid schema_version, expected x.y.z"
  | _ => .error "ValueError: invalid schema_version, expected x.y.z"

/-- Python truthiness filter on an optional string: `if rule_set_v1.get(k):`
keeps only present, non-empty values. -/
def truthyOpt : Option String → Option String
  | some s => if s = "" then none else some s
  | none => none

/-- `migrate_v1_to_v2` from `scripts/migrate_ruleset_v1_to_v2.py` (lines
26-69): rejects inputs whose schema major version is not 1 (or whose
`schema_version` is malformed); requires `rule_set_id` (Python raises
`KeyError` otherwise); writes `schema_version = "2.0.0"`, the
`metric_profile` from the keyword arguments (with `preset_id` only for the
`preset` profile type, defaulting to `<sport>_starter`), copies `metadata`,
`inputs`, `globals`, `phases`, `rules` verbatim, and copies `sport` /
`sport_version` only when truthy.  The `report` return value is derived data
and is not modelled. -/
def migrate_v1_to_v2 (ruleSetV1 : RuleSetV1)
    (profile_id : String := "generic_core") (profile_type : String := "generic")
    (preset_id : Option String := none) : Except String RuleSetV2 := do
  let major ← schemaMajor (ruleSetV1.schema_version.getD "")
  if major ≠ 1 then .error "ValueError: input ruleset is not schema v1."
  else do
    let rsid ← match ruleSetV1.rule_set_id with
      | some x => Except.ok x
      | none => Except.error "KeyError: rule_set_id"
    let presetFallback := (ruleSetV1.sport.getD "starter") ++ "_starter"
    let profile : MetricProfile :=
      { id := profile_id, ptype := profile_type, metric_space := "core_v1",
        preset_id :=
          if profile_type = "preset" then
            some (match preset_id with
              | some s => if s = "" then presetFallback else s
              | none => presetFallback)
          else none }
    .ok { schema_version := "2.0.0", rule_set_id := rsid,
          metric_profile := profile,
          metadata := ruleSetV1.metadata, inputs := ruleSetV1.inputs,
          globals := ruleSetV1.globals, phases := ruleSetV1.phases,
          rules := ruleSetV1.rules,
          sport := truthyOpt ruleSetV1.sport,
          sport_version := truthyOpt ruleSetV1.sport_version }

/-- The errors `PluginRegistry` raises (`plugins/registry.py`).  The
`notRegistered` message renders as the plugin name followed by the known
names sorted and comma-joined (`"<none>"` when empty); the `known` field
carries that sorted list. -/
inductive PluginErr where
  | emptyName
  | alreadyRegistered (key : String)
  | notRegistered (name : String) (known : List String)
  deriving DecidableEq, Repr

/-- `PluginRegistry.register` (registry.py:29-37): rejects falsy and
whitespace-only names, strips the name, rejects an already-registered key,
then stores the factory under the stripped key. -/
def registerPlugin {α : Type} (registry : List (String × (Unit → α)))
    (name : String) (factory : Unit → α) :
    Except PluginErr (List (String × (Unit → α))) :=
  if name = "" then .error .emptyName
  else
    let key := pyStrip name
    if key = "" then .error .emptyName
    else if registry.any (fun p => p.1 = key) then .error (.alreadyRegistered key)
    else .ok (registry ++ [(key, factory)])

/-- `sorted(self._registry.keys())` (registry.py:41). -/
def sortedNames {α : Type} (registry : List (String × (Unit → α))) : List String :=
  (registry.map (fun p => p.1)).mergeSort (fun a b => decide (a ≤ b))

/-- `PluginRegistry.create` (registry.py:39-43): looks the name up as given
(unstripped); on failure the error lists all known plugin names; on success
returns `factory()`. -/
def createPlugin {α : Type} (registry : List (String × (Unit → α)))
    (name : String) : Except PluginErr α :=
  match registry.lookup name with
  | some factory => .ok (factory ())
  | none => .error (.notRegistered name (sortedNames registry))

/-- Modelled from the claim wording for C5: resolve the event frame, add
`round(pre_ms*fps/1000)` and `round(post_ms*fps/1000)` as offsets, swap start
and end if start exceeds end, and clamp the resulting inclusive range to
`[0, maxFrame]` (that is, keep exactly its members inside that interval). -/
def resolvedEventRangeSpec (eventFrame : ℤ) (preMs postMs fps : ℚ)
    (maxFrame : ℤ) : List ℤ :=
  let s0 := eventFrame + pyRound (preMs * fps / 1000)
  let e0 := eventFrame + pyRound (postMs * fps / 1000)
  (rangeIncl (min s0 e0) (max s0 e0)).filter
    (fun i => decide (0 ≤ i) && decide (i ≤ maxFrame))

/-- Description of the entries `build_step_ranges` keeps (amended C8 wording):
walk the phases in declaration order carrying the 1-based declaration index
(which advances on skipped phases too); skip phases with a falsy id or
without an explicit `frame_range`; a kept phase contributes its id, its step
name (the legacy step name when present and non-empty, else
`Step<declaration index>`), and the inclusive frame range. -/
def stepEntriesDesc : ℕ → List Phase → List (String × String × List ℤ)
  | _, [] => []
  | idx, p :: rest =>
    match p.frame_range with
    | some (start, stop) =>
      if p.id = "" then stepEntriesDesc (idx + 1) rest
      else (p.id, legacyStepName p idx, rangeIncl start stop)
        :: stepEntriesDesc (idx + 1) rest
    | none => stepEntriesDesc (idx + 1) rest

/-- A concrete plugin factory used by the registry claim's witness. -/
def witnessFactory : Unit → ℕ := fun _ => 42

/-! ## Helper lemmas -/

theorem except_bind_ok {ε α β : Type} {x : Except ε α} {f : α → Except ε β}
    {b : β} (h : x >>= f = .ok b) : ∃ a, x = .ok a ∧ f a = .ok b := by
  cases x with
  | ok a => exact ⟨a, rfl, h⟩
  | error e => simp only [bind, Except.bind, reduceCtorEq] at h

theorem mapME_ok_mem {α β : Type} {f : α → Except String β} :
    ∀ {xs : List α} {ys : List β} {x : α},
      mapME f xs = .ok ys → x ∈ xs → ∃ y, f x = .ok y := by
  intro xs
  induction xs with
  | nil => intro ys x h hx; cases hx
  | cons a l ih =>
    intro ys x h hx
    unfold mapME at h
    obtain ⟨y, hy, hrest⟩ := except_bind_ok h
    obtain ⟨ys2, hys2, _⟩ := except_bind_ok hrest
    cases hx with
    | head => exact ⟨y, hy⟩
    | tail _ hmem => exact ih hys2 hmem

theorem mapME_ok_mem_rev {α β : Type} {f : α → Except String β} :
    ∀ {xs : List α} {ys : List β} {y : β},
      mapME f xs = .ok ys → y ∈ ys → ∃ x, x ∈ xs ∧ f x = .ok y := by
  intro xs
  induction xs with
  | nil =>
    intro ys y h hy
    unfold mapME at h
    simp only [Except.ok.injEq] at h
    subst h
    cases hy
  | cons a l ih =>
    intro ys y h hy
    unfold mapME at h
    obtain ⟨y0, hy0, hrest⟩ := except_bind_ok h
    obtain ⟨ys2, hys2, hpure⟩ := except_bind_ok hrest
    simp only [pure, Except.pure, Except.ok.injEq] at hpure
    subst hpure
    cases hy with
    | head => exact ⟨a, List.mem_cons_self a l, hy0⟩
    | tail _ hmem =>
      obtain ⟨x, hx, hfx⟩ := ih hys2 hmem
      exact ⟨x, List.mem_cons_of_mem a hx, hfx⟩

/-! ## Claim C1: tolerance monotonicity of threshold operators -/

/-- C1 counterexample: the claim is false as stated.  For the operator `neq`
(included in the claim's operator list) widening the tolerance turns a pass
into a fail: with observed value 1 and target 0, tolerance 0 passes
(`|1 - 0| > 0`) but tolerance 2 fails (`|1 - 0| ≤ 2`). -/
theorem neq_tolerance_antimonotone_cex :
    evaluateNumericCondition 1
      { ctype := "threshold", op := some "neq", value := some (.num 0),
        tolerance := some 0 } = .ok true
    ∧ evaluateNumericCondition 1
      { ctype := "threshold", op := some "neq", value := some (.num 0),
        tolerance := some 2 } = .ok false
    ∧ (0 : ℚ) ≤ 0 ∧ (0 : ℚ) ≤ 2 := by
  refine ⟨?_, ?_, le_refl 0, by norm_num⟩ <;>
  · simp only [evaluateNumericCondition, asNumber, cmpOp, Option.getD,
      String.reduceEq, reduceIte, or_self, false_or, or_false]
    norm_num

/-- C1 (amended): for a threshold condition with operator `gte`, `gt`, `lte`,
`lt` or `eq` and a fixed observed value, the pass verdict is monotone in the
tolerance: if it passes with tolerance `t1 ≤ t2` it also passes with `t2`.
For `neq` the verdict is instead antitone (widening the tolerance shrinks the
passing region), as the counterexample shows. -/
theorem threshold_tolerance_monotone (c : Cond) (lhs t1 t2 : ℚ) (op : String)
    (hty : c.ctype = "threshold") (hop : c.op = some op)
    (hops : op = "gte" ∨ op = "gt" ∨ op = "lte" ∨ op = "lt" ∨ op = "eq")
    (h0 : 0 ≤ t1) (h12 : t1 ≤ t2)
    (hpass : evaluateNumericCondition lhs { c with tolerance := some t1 } = .ok true) :
    evaluateNumericCondition lhs { c with tolerance := some t2 } = .ok true := by
  cases c with
  | mk i ct m o v tl av ev wf wm j pr lg cs =>
    dsimp only at hty hop
    subst hty
    subst hop
    dsimp only [evaluateNumericCondition, Option.getD] at hpass ⊢
    simp only [String.reduceEq, reduceIte] at hpass ⊢
    cases v with
    | none => simp at hpass
    | some jv =>
      cases jv with
      | arr xs => simp [asNumber] at hpass
      | num target =>
        dsimp only [asNumber] at hpass ⊢
        rcases hops with h | h | h | h | h <;> subst h <;>
          simp only [cmpOp, String.reduceEq, reduceIte, or_self, false_or,
            or_false, Except.ok.injEq, decide_eq_true_eq, ge_iff_le,
            abs_le] at hpass ⊢ <;>
          first
            | linarith
            | (obtain ⟨ha, hb⟩ := hpass; exact ⟨by linarith, by linarith⟩)

/-- C1 witness: the monotonicity theorem applied at a concrete input
(operator `gte`, target 5, observed value 5, tolerances 0 ≤ 1). -/
theorem threshold_tolerance_monotone_witness :
    (0 : ℚ) ≤ 0 ∧ (0 : ℚ) ≤ 1
    ∧ evaluateNumericCondition 5
        { ctype := "threshold", op := some "gte", value := some (.num 5),
          tolerance := some 0 } = .ok true
    ∧ evaluateNumericCondition 5
        { ctype := "threshold", op := some "gte", value := some (.num 5),
          tolerance := some 1 } = .ok true := by
  have hp : evaluateNumericCondition 5
      { ctype := "threshold", op := some "gte", value := some (.num 5),
        tolerance := some 0 } = .ok true := by
    simp only [evaluateNumericCondition, asNumber, cmpOp, Option.getD,
      String.reduceEq, reduceIte, or_self, false_or, or_false, true_or]
    norm_num
  exact ⟨le_refl 0, by norm_num, hp,
    threshold_tolerance_monotone
      { ctype := "threshold", op := some "gte", value := some (.num 5) }
      5 0 1 "gte" rfl rfl (Or.inl rfl) (le_refl 0) (by norm_num) hp⟩

/-! ## Claim C2: composite conditions inside `RuleEngine.analyze` -/

/-- C2 (code bug): the claim describes the intended behaviour — and
`evaluate_composite_condition` implements it correctly in isolation (second
conjunct) — but `RuleEngine._evaluate_rule` routes every condition, composite
included, through `evaluator.evaluate_condition(cond, metrics)`, which raises
`NotImplementedError` for composites ("should be handled at rule level") and
the rule level never handles them.  So `analyze` fails on any rule containing
a composite condition even when all referenced siblings evaluate fine (first
conjunct), contradicting the code's own comment in
`plugins/baseball.py:60-62`, which lists `composite` as supported "in sync
with ... composite handling in RuleEngine". -/
theorem analyze_composite_not_wired :
    (analyze
        { phases := [{ id := "p", frame_range := some (0, 0) }],
          rules := [{ id := "r", phase := "p",
                      conditions := [
                        { id := "c1", ctype := "boolean", metric := some "m",
                          op := some "is_true" },
                        { id := "c2", ctype := "composite", logic := some "all",
                          conditions := ["c1"] }] }] }
        (fun _ => [("m", 1)]) {} 5 5).isOk = false
    ∧ evaluateCompositeCondition
        { id := "c2", ctype := "composite", logic := some "all",
          conditions := ["c1"] }
        [("c1", { id := "c1", passed := true, value := .bool true })]
      = .ok { id := "c2", passed := true, value := .passMap [("c1", true)] } :=
  ⟨rfl, rfl⟩

/-! ## Claim C3: analyze evaluates conditions with scalar metrics only -/

/-- Key lemma for C3: `evaluate_condition` as called by the engine — scalar
metrics only, empty series mapping, empty context, no skeleton frames — can
only return a result for `threshold`, `range` and `boolean` conditions; every
other condition type (`trend`, `event_exists`, `angle`, `distance`,
`composite`, unknown) raises. -/
theorem evaluateCondition_ok_ctype {c : Cond} {metrics : List (String × ℚ)}
    {r : ConditionResult} (h : evaluateCondition c metrics [] {} = .ok r) :
    c.ctype = "threshold" ∨ c.ctype = "range" ∨ c.ctype = "boolean" := by
  by_contra hn
  push_neg at hn
  obtain ⟨h1, h2, h3⟩ := hn
  unfold evaluateCondition at h
  rw [if_neg (by simp [h1, h2, h3])] at h
  simp only [List.lookup_nil] at h
  repeat' split at h
  all_goals simp_all

/-- C3: `RuleEngine.analyze` hands every condition of every applicable rule
to `evaluator.evaluate_condition(cond, metrics)` with only the scalar metrics
mapping — no metric series, no context, no skeleton frames — so whenever
`analyze` completes, every condition of every rule attached to a declared
phase is of type `threshold`, `range` or `boolean`; contrapositively, a rule
containing a `trend`, `event_exists`, `angle`, `distance` or `composite`
condition (or any unknown type) makes `analyze` raise, even though the engine
holds the context events and skeleton data that could have served them. -/
theorem analyze_ok_condition_types (ruleSet : RuleSet)
    (computeMetrics : String → List (String × ℚ)) (context : Ctx)
    (nStudent nCoach : ℕ) (res : List (String × PhaseOut))
    (hok : analyze ruleSet computeMetrics context nStudent nCoach = .ok res)
    (rule : Rule) (hr : rule ∈ ruleSet.rules)
    (phase : Phase) (hp : phase ∈ ruleSet.phases) (hmatch : rule.phase = phase.id)
    (c : Cond) (hc : c ∈ rule.conditions) :
    c.ctype = "threshold" ∨ c.ctype = "range" ∨ c.ctype = "boolean" := by
  unfold analyze at hok
  obtain ⟨y, hy⟩ := mapME_ok_mem hok hp
  obtain ⟨fr, hfr, hrest⟩ := except_bind_ok hy
  obtain ⟨rrs, hrrs, hpure⟩ := except_bind_ok hrest
  have hrulemem : rule ∈ ruleSet.rules.filter (fun r => r.phase = phase.id) :=
    List.mem_filter.mpr (And.intro hr (by simp [hmatch]))
  obtain ⟨rr, hrr⟩ := mapME_ok_mem hrrs hrulemem
  unfold evaluateRule at hrr
  obtain ⟨crs, hcrs, _⟩ := except_bind_ok hrr
  obtain ⟨cr, hcr⟩ := mapME_ok_mem hcrs hc
  exact evaluateCondition_ok_ctype hcr

/-- C3 witness: a run of `analyze` on one phase with one `boolean`-condition
rule completes, and the theorem applied to that run yields the condition-type
disjunction for its condition. -/
theorem analyze_ok_condition_types_witness :
    analyze
      { phases := [{ id := "p", frame_range := some (0, 1) }],
        rules := [{ id := "r1", phase := "p",
                    conditions := [{ id := "c1", ctype := "boolean",
                                     metric := some "m", op := some "is_true" }] }] }
      (fun _ => [("m", 2)]) {} 3 3
      = .ok [("p",
          { ruleResults := [{ rule_id := "r1", label := none, passed := true,
                              score := 1,
                              conditions := [{ id := "c1", passed := true,
                                               value := .bool true }],
                              feedback := [] }],
            score := 100, classification := "correct",
            metrics := [("m", 2)], frameRange := [0, 1] })]
    ∧ (({ id := "c1", ctype := "boolean", metric := some "m",
          op := some "is_true" } : Cond).ctype = "threshold"
        ∨ ({ id := "c1", ctype := "boolean", metric := some "m",
             op := some "is_true" } : Cond).ctype = "range"
        ∨ ({ id := "c1", ctype := "boolean", metric := some "m",
             op := some "is_true" } : Cond).ctype = "boolean") := by
  have hok : analyze
      { phases := [{ id := "p", frame_range := some (0, 1) }],
        rules := [{ id := "r1", phase := "p",
                    conditions := [{ id := "c1", ctype := "boolean",
                                     metric := some "m", op := some "is_true" }] }] }
      (fun _ => [("m", 2)]) {} 3 3
      = .ok [("p",
          { ruleResults := [{ rule_id := "r1", label := none, passed := true,
                              score := 1,
                              conditions := [{ id := "c1", passed := true,
                                               value := .bool true }],
                              feedback := [] }],
            score := 100, classification := "correct",
            metrics := [("m", 2)], frameRange := [0, 1] })] := by rfl
  refine And.intro hok ?_
  exact analyze_ok_condition_types _ _ _ _ _ _ hok
    { id := "r1", phase := "p",
      conditions := [{ id := "c1", ctype := "boolean", metric := some "m",
                       op := some "is_true" }] }
    (List.mem_singleton_self _)
    { id := "p", frame_range := some (0, 1) }
    (List.mem_singleton_self _) rfl _ (List.mem_singleton_self _)

/-! ## Claim C5: event-window frame-range resolution -/

theorem rangeIncl_eq_nil {s e : ℤ} (h : e < s) : rangeIncl s e = [] := by
  unfold rangeIncl
  have h0 : (e + 1 - s).toNat = 0 := by omega
  rw [h0, List.range_zero, List.map_nil]

theorem rangeIncl_cons {s e : ℤ} (h : s ≤ e) :
    rangeIncl s e = s :: rangeIncl (s + 1) e := by
  unfold rangeIncl
  have hn : (e + 1 - s).toNat = (e + 1 - (s + 1)).toNat + 1 := by omega
  rw [hn, List.range_succ_eq_map, List.map_cons, List.map_map]
  have hcomp : ((fun i : ℕ => s + (i : ℤ)) ∘ Nat.succ)
      = (fun i : ℕ => s + 1 + (i : ℤ)) := by
    funext i
    simp [Nat.succ_eq_add_one]
    push_cast
    ring
  rw [hcomp]
  simp

theorem range_map_filter_clamp (m : ℤ) :
    ∀ (n : ℕ) (s : ℤ),
      ((List.range n).map (fun i : ℕ => s + (i : ℤ))).filter
          (fun i => decide (0 ≤ i) && decide (i ≤ m))
        = rangeIncl (max 0 s) (min (s + n - 1) m) := by
  intro n
  induction n with
  | zero =>
    intro s
    simp only [List.range_zero, List.map_nil, List.filter_nil]
    exact (rangeIncl_eq_nil (by omega)).symm
  | succ n ih =>
    intro s
    rw [List.range_succ_eq_map, List.map_cons, List.map_map]
    have hcomp : ((fun i : ℕ => s + (i : ℤ)) ∘ Nat.succ)
        = (fun i : ℕ => s + 1 + (i : ℤ)) := by
      funext i
      simp [Nat.succ_eq_add_one]
      push_cast
      ring
    rw [hcomp]
    simp only [Nat.cast_zero, add_zero, List.filter_cons]
    rw [ih (s + 1)]
    have hup : min (s + 1 + (n : ℤ) - 1) m = min (s + ((n : ℕ) + 1 : ℕ) - 1) m := by
      push_cast
      ring_nf
    by_cases h0 : 0 ≤ s
    · by_cases hm2 : s ≤ m
      · rw [if_pos (by simp [h0, hm2])]
        rw [hup]
        have hmax1 : max 0 (s + 1) = s + 1 := by omega
        have hmax0 : max 0 s = s := by omega
        rw [hmax1, hmax0]
        exact (rangeIncl_cons (by push_cast; omega)).symm
      · rw [if_neg (by simp [hm2])]
        rw [rangeIncl_eq_nil (by omega), rangeIncl_eq_nil (by push_cast; omega)]
    · rw [if_neg (by simp [h0])]
      rw [hup, show max 0 (s + 1) = max 0 s from by omega]

/-- Clamping an inclusive integer range to `[0, m]` — keeping exactly the
members inside that interval — equals raising the start to at least 0 and
lowering the end to at most `m`, which is what `engine.py` computes with
`max(0, start)` / `min(end, max_frame)`. -/
theorem filter_clamp_rangeIncl {a b m : ℤ} (hab : a ≤ b) :
    (rangeIncl a b).filter (fun i => decide (0 ≤ i) && decide (i ≤ m))
      = rangeIncl (max 0 a) (min b m) := by
  have h := range_map_filter_clamp m ((b + 1 - a).toNat) a
  rw [show (a + (((b + 1 - a).toNat : ℕ) : ℤ) - 1) = b from by omega] at h
  exact h

/-- C5: for every phase declaring an event window, once the event frame is
resolved (`resolveEventFrame` embeds the bare-index / `frame`-field /
`round(ts_ms*fps/1000)` rule), the resolved range is: event frame plus the
`round(ms*fps/1000)` offsets, swapped when start exceeds end, and the
resulting inclusive range clamped to `[0, maxFrame]`. -/
theorem event_window_range_resolution (ruleSet : RuleSet) (phase : Phase)
    (context : Ctx) (maxFrame : ℤ) (eventName : String) (preMs postMs fps : ℚ)
    (eventFrame : ℤ)
    (hfr : phase.frame_range = none)
    (hew : phase.event_window
      = some { event := some eventName, window_ms := some [preMs, postMs] })
    (hne : eventName ≠ "")
    (hfps : ruleSet.expected_fps = some fps)
    (hef : resolveEventFrame eventName context fps = .ok eventFrame) :
    phaseFrameRange ruleSet phase context maxFrame
      = .ok (resolvedEventRangeSpec eventFrame preMs postMs fps maxFrame) := by
  unfold phaseFrameRange
  simp only [hfr, hew, hfps, hef, Option.getD_some]
  rw [if_neg hne]
  unfold resolvedEventRangeSpec msToFrameOffset
  by_cases hsw : eventFrame + pyRound (preMs * fps / 1000)
      > eventFrame + pyRound (postMs * fps / 1000)
  · rw [if_pos hsw]
    dsimp only
    rw [min_eq_right hsw.le, max_eq_left hsw.le]
    rw [filter_clamp_rangeIncl hsw.le]
  · push_neg at hsw
    rw [if_neg (not_lt.mpr hsw)]
    dsimp only
    rw [min_eq_left hsw, max_eq_right hsw]
    rw [filter_clamp_rangeIncl hsw]

/-- C5 witness: with `expected_fps = 30`, an event at frame 90 and
`window_ms = [-100, 200]` on sufficiently long sequences (`max_frame = 150`),
the resolved inclusive range is `[87, …, 96]`. -/
theorem event_window_range_resolution_witness :
    phaseFrameRange { expected_fps := some 30 }
      { id := "p",
        event_window := some { event := some "impact",
                               window_ms := some [-100, 200] } }
      { events := [("impact", .bare 90)] } 150
      = .ok (resolvedEventRangeSpec 90 (-100) 200 30 150)
    ∧ resolvedEventRangeSpec 90 (-100) 200 30 150
      = [87, 88, 89, 90, 91, 92, 93, 94, 95, 96]
    ∧ resolveEventFrame "impact" { events := [("impact", .bare 90)] } 30
      = .ok 90 := by
  have hef : resolveEventFrame "impact"
      { events := [("impact", .bare 90)] } 30 = .ok 90 := by
    norm_num [resolveEventFrame, List.lookup, pyInt]
  have h1 : pyRound ((-100) * 30 / 1000) = -3 := by norm_num [pyRound]
  have h2 : pyRound (200 * 30 / 1000) = 6 := by norm_num [pyRound]
  have hspec : resolvedEventRangeSpec 90 (-100) 200 30 150
      = [87, 88, 89, 90, 91, 92, 93, 94, 95, 96] := by
    simp only [resolvedEventRangeSpec, h1, h2]
    decide
  refine And.intro ?_ (And.intro hspec hef)
  exact event_window_range_resolution _ _ _ _ "impact" (-100) 200 30 90
    rfl rfl (by decide) rfl hef

/-! ## Claim C6: step score is the truncated mean of the 100/30 rule values -/

/-- C6: whenever `analyze` completes, every returned phase entry with at
least one applicable rule has `Score` equal to the unweighted mean of the
per-rule values (100 for a passed rule, 30 for a failed one), truncated to an
integer: it is the natural-number quotient, which equals the floor of the
exact rational mean. -/
theorem step_score_truncated_mean (ruleSet : RuleSet)
    (computeMetrics : String → List (String × ℚ)) (context : Ctx)
    (nStudent nCoach : ℕ) (res : List (String × PhaseOut))
    (hok : analyze ruleSet computeMetrics context nStudent nCoach = .ok res)
    (pid : String) (po : PhaseOut) (hmem : (pid, po) ∈ res)
    (hne : po.ruleResults ≠ []) :
    po.score
      = (po.ruleResults.map (fun rr => if rr.passed then (100 : ℕ) else 30)).sum
        / po.ruleResults.length
    ∧ (po.score : ℤ)
      = ⌊((po.ruleResults.map (fun rr => if rr.passed then (100 : ℚ) else 30)).sum
          / (po.ruleResults.length : ℚ))⌋ := by
  unfold analyze at hok
  obtain ⟨phase, hpmem, hbody⟩ := mapME_ok_mem_rev hok hmem
  obtain ⟨fr, hfr, hrest⟩ := except_bind_ok hbody
  obtain ⟨rrs, hrrs, hpure⟩ := except_bind_ok hrest
  simp only [pure, Except.pure, Except.ok.injEq] at hpure
  have hpo : po =
      { ruleResults := rrs, score := stepScorePct rrs,
        classification := classifyStep (rrs.map (fun rr => (rr.rule_id, rr.passed))),
        metrics := computeMetrics phase.id, frameRange := fr } :=
    (congrArg Prod.snd hpure).symm
  subst hpo
  simp only at hne ⊢
  have hmapne : rrs.map (fun rr => if rr.passed then (100 : ℕ) else 30) ≠ [] := by
    simpa using hne
  have hq : (rrs.map (fun rr => if rr.passed then (100 : ℚ) else 30)).sum
      = (((rrs.map (fun rr => if rr.passed then (100 : ℕ) else 30)).sum : ℕ) : ℚ) := by
    rw [Nat.cast_list_sum, List.map_map]
    have hfun : (fun rr : RuleResult => if rr.passed then (100 : ℚ) else 30)
        = (Nat.cast ∘ fun rr : RuleResult => if rr.passed then (100 : ℕ) else 30) := by
      funext rr
      by_cases hp : rr.passed <;> simp [hp]
    rw [hfun]
  have hlen : rrs.length ≠ 0 := by simpa using hne
  constructor
  · unfold stepScorePct
    rw [if_neg hmapne, List.length_map]
  · unfold stepScorePct
    rw [if_neg hmapne, hq]
    rw [← Int.natCast_floor_eq_floor (by positivity)]
    rw [Nat.floor_div_eq_div, List.length_map]

/-- C6 witness: a concrete run with one passing and one failing rule gives
step score `int((100 + 30)/2) = 65`, matching the theorem's formula. -/
theorem step_score_truncated_mean_witness :
    analyze
      { phases := [{ id := "p", frame_range := some (0, 1) }],
        rules := [
          { id := "r1", phase := "p",
            conditions := [{ id := "c1", ctype := "boolean",
                             metric := some "m", op := some "is_true" }] },
          { id := "r2", phase := "p",
            conditions := [{ id := "c2", ctype := "boolean",
                             metric := some "z", op := some "is_true" }] }] }
      (fun _ => [("m", 2), ("z", 0)]) {} 3 3
      = .ok [("p",
          { ruleResults := [
              { rule_id := "r1", label := none, passed := true, score := 1,
                conditions := [{ id := "c1", passed := true, value := .bool true }],
                feedback := [] },
              { rule_id := "r2", label := none, passed := false, score := 0,
                conditions := [{ id := "c2", passed := false, value := .bool false }],
                feedback := [] }],
            score := 65, classification := "mid",
            metrics := [("m", 2), ("z", 0)], frameRange := [0, 1] })]
    ∧ (65 : ℕ) = (100 + 30) / 2 := by
  have hok : analyze
      { phases := [{ id := "p", frame_range := some (0, 1) }],
        rules := [
          { id := "r1", phase := "p",
            conditions := [{ id := "c1", ctype := "boolean",
                             metric := some "m", op := some "is_true" }] },
          { id := "r2", phase := "p",
            conditions := [{ id := "c2", ctype := "boolean",
                             metric := some "z", op := some "is_true" }] }] }
      (fun _ => [("m", 2), ("z", 0)]) {} 3 3
      = .ok [("p",
          { ruleResults := [
              { rule_id := "r1", label := none, passed := true, score := 1,
                conditions := [{ id := "c1", passed := true, value := .bool true }],
                feedback := [] },
              { rule_id := "r2", label := none, passed := false, score := 0,
                conditions := [{ id := "c2", passed := false, value := .bool false }],
                feedback := [] }],
            score := 65, classification := "mid",
            metrics := [("m", 2), ("z", 0)], frameRange := [0, 1] })] := by rfl
  have h65 := step_score_truncated_mean _ _ _ _ _ _ hok "p"
    { ruleResults := [
        { rule_id := "r1", label := none, passed := true, score := 1,
          conditions := [{ id := "c1", passed := true, value := .bool true }],
          feedback := [] },
        { rule_id := "r2", label := none, passed := false, score := 0,
          conditions := [{ id := "c2", passed := false, value := .bool false }],
          feedback := [] }],
      score := 65, classification := "mid",
      metrics := [("m", 2), ("z", 0)], frameRange := [0, 1] }
    (List.mem_singleton_self _) (by simp)
  exact And.intro hok (by simpa using h65.1)

/-! ## Claim C4: `aggregate_score` in `average` mode -/

/-- C4 counterexample: with mode `average`, `max_score = 100` and three
condition results of which exactly two passed, `aggregate_score` returns the
exact rational `200/3 = 66.66…`, not the integer 66: nothing in
`aggregate_score` truncates. -/
theorem aggregate_average_not_66_cex :
    aggregateScore { mode := some "average", max_score := some 100 }
      [{ id := "a", passed := true, value := .num 0 },
       { id := "b", passed := true, value := .num 0 },
       { id := "c", passed := false, value := .num 0 }] ≠ 66 := by
  simp only [aggregateScore, Option.getD]
  rw [if_neg (by simp), if_neg (by decide)]
  norm_num [List.countP, List.countP.go]

/-- C4 (amended): the same call returns exactly `max_score × passed/total =
100 × 2/3 = 200/3` (≈ 66.67) as an untruncated number; its integer truncation
(floor) is 66, which is where the spec's expected `66` comes from, but the
truncation does not happen inside `aggregate_score`. -/
theorem aggregate_average_exact_value :
    aggregateScore { mode := some "average", max_score := some 100 }
      [{ id := "a", passed := true, value := .num 0 },
       { id := "b", passed := true, value := .num 0 },
       { id := "c", passed := false, value := .num 0 }] = 200/3
    ∧ ⌊(200/3 : ℚ)⌋ = 66 := by
  constructor
  · simp only [aggregateScore, Option.getD]
    rw [if_neg (by simp), if_neg (by decide)]
    norm_num [List.countP, List.countP.go]
  · norm_num

/-- Dropping a truthiness filter is the identity away from the empty string. -/
theorem truthyOpt_eq_self {o : Option String} (h : o ≠ some "") :
    truthyOpt o = o := by
  cases o with
  | none => rfl
  | some s =>
    have hs : s ≠ "" := fun he => h (by rw [he])
    simp only [truthyOpt]
    rw [if_neg hs]

/-- C7 (amended): `migrate_v1_to_v2` succeeds only on inputs whose schema
major version is exactly 1 (with a well-formed `x.y.z` version string); on
success it stamps `schema_version = "2.0.0"`, copies `phases`, `rules`,
`metadata`, `inputs` and `globals` verbatim, sets `metric_profile.id` to the
given profile id (whose Python keyword default is `"generic_core"`), and
reproduces `sport` / `sport_version` verbatim *provided they are not the
empty string* — a present-but-empty value is dropped by the truthiness test
`if rule_set_v1.get("sport"):`, as the counterexample shows. -/
theorem migrate_v1_to_v2_roundtrip (ruleSetV1 : RuleSetV1)
    (profileId profileType : String) (presetId : Option String)
    (out : RuleSetV2)
    (hok : migrate_v1_to_v2 ruleSetV1 profileId profileType presetId = .ok out) :
    schemaMajor (ruleSetV1.schema_version.getD "") = .ok 1
    ∧ out.schema_version = "2.0.0"
    ∧ out.phases = ruleSetV1.phases
    ∧ out.rules = ruleSetV1.rules
    ∧ out.metadata = ruleSetV1.metadata
    ∧ out.inputs = ruleSetV1.inputs
    ∧ out.globals = ruleSetV1.globals
    ∧ out.metric_profile.id = profileId
    ∧ (ruleSetV1.sport ≠ some "" → out.sport = ruleSetV1.sport)
    ∧ (ruleSetV1.sport_version ≠ some "" →
        out.sport_version = ruleSetV1.sport_version) := by
  unfold migrate_v1_to_v2 at hok
  obtain ⟨major, hmaj, hrest⟩ := except_bind_ok hok
  split at hrest
  · exact absurd hrest (by simp)
  · rename_i hmajne
    have hmaj1 : major = 1 := not_ne_iff.mp hmajne
    subst hmaj1
    cases hrsid : ruleSetV1.rule_set_id with
    | none =>
      rw [hrsid] at hrest
      exact absurd hrest (by simp [Bind.bind, Except.bind])
    | some rsid =>
      rw [hrsid] at hrest
      simp only [Bind.bind, Except.bind, Except.ok.injEq] at hrest
      subst hrest
      refine ⟨hmaj, rfl, rfl, rfl, rfl, rfl, rfl, rfl, ?_, ?_⟩
      · intro hs
        exact truthyOpt_eq_self hs
      · intro hs
        exact truthyOpt_eq_self hs

/-- C7 witness: migrating a well-formed schema-1 rule set with non-empty
`sport`/`sport_version` succeeds and the round-trip conclusions of the
theorem hold for it. -/
theorem migrate_v1_to_v2_roundtrip_witness :
    migrate_v1_to_v2
      { schema_version := some "1.2.3", rule_set_id := some "rs",
        sport := some "baseball", sport_version := some "v1",
        metadata := [("k", "v")], phases := ["ph"], rules := ["ru"] }
      "generic_core" "generic" none
      = .ok { schema_version := "2.0.0", rule_set_id := "rs",
              metric_profile := { id := "generic_core", ptype := "generic",
                                  metric_space := "core_v1", preset_id := none },
              metadata := [("k", "v")], inputs := [], globals := [],
              phases := ["ph"], rules := ["ru"],
              sport := some "baseball", sport_version := some "v1" }
    ∧ (some "baseball" : Option String) ≠ some ""
    ∧ ({ schema_version := "2.0.0", rule_set_id := "rs",
         metric_profile := { id := "generic_core", ptype := "generic",
                             metric_space := "core_v1", preset_id := none },
         metadata := [("k", "v")], inputs := [], globals := [],
         phases := ["ph"], rules := ["ru"],
         sport := some "baseball", sport_version := some "v1" } : RuleSetV2).sport
        = ({ schema_version := some "1.2.3", rule_set_id := some "rs",
             sport := some "baseball", sport_version := some "v1",
             metadata := [("k", "v")], phases := ["ph"],
             rules := ["ru"] } : RuleSetV1).sport := by
  have hok : migrate_v1_to_v2
      { schema_version := some "1.2.3", rule_set_id := some "rs",
        sport := some "baseball", sport_version := some "v1",
        metadata := [("k", "v")], phases := ["ph"], rules := ["ru"] }
      "generic_core" "generic" none
      = .ok { schema_version := "2.0.0", rule_set_id := "rs",
              metric_profile := { id := "generic_core", ptype := "generic",
                                  metric_space := "core_v1", preset_id := none },
              metadata := [("k", "v")], inputs := [], globals := [],
              phases := ["ph"], rules := ["ru"],
              sport := some "baseball", sport_version := some "v1" } := by rfl
  have h := migrate_v1_to_v2_roundtrip _ _ _ _ _ hok
  exact ⟨hok, by simp, h.2.2.2.2.2.2.2.2.1 (by simp)⟩

/-! ## Claim C9: missing metric / metric series raises -/

/-- C9: for `threshold`, `range` and `boolean` conditions whose named metric
is absent from the metrics mapping (including a missing `metric` key), and
for `trend` conditions whose named metric series is absent from the series
mapping, `evaluate_condition` raises and never returns a `ConditionResult`. -/
theorem missing_metric_errors (c : Cond) (metrics : List (String × ℚ))
    (metricSeries : List (String × List ℚ)) (context : Ctx)
    (hty : c.ctype = "threshold" ∨ c.ctype = "range" ∨ c.ctype = "boolean"
      ∨ c.ctype = "trend")
    (hmet : c.ctype ≠ "trend" → ∀ m, c.metric = some m → metrics.lookup m = none)
    (hser : c.ctype = "trend" → ∀ m, c.metric = some m → metricSeries.lookup m = none) :
    (evaluateCondition c metrics metricSeries context).isOk = false := by
  unfold evaluateCondition
  by_cases htr : c.ctype = "trend"
  · simp only [htr, String.reduceEq, reduceIte, or_self, or_false, false_or]
    cases hm : c.metric with
    | none => simp [hm, Except.isOk, Except.toBool]
    | some m =>
      by_cases hm0 : m = ""
      · simp [hm, hm0, Except.isOk, Except.toBool]
      · simp [hm, hm0, hser htr m hm, Except.isOk, Except.toBool, Except.toBool]
  · have hpos : c.ctype = "threshold" ∨ c.ctype = "range" ∨ c.ctype = "boolean" := by
      tauto
    rw [if_pos hpos]
    cases hm : c.metric with
    | none => simp [hm, Except.isOk, Except.toBool]
    | some m => simp [hm, hmet htr m hm, Except.isOk, Except.toBool, Except.toBool]

/-- C9 witness: a `threshold` condition naming metric `m` evaluated against
an empty metrics mapping errors out. -/
theorem missing_metric_errors_witness :
    (({ id := "c1", ctype := "threshold", metric := some "m", op := some "gte",
        value := some (.num 1) } : Cond).ctype = "threshold"
      ∨ ({ id := "c1", ctype := "threshold", metric := some "m", op := some "gte",
           value := some (.num 1) } : Cond).ctype = "range"
      ∨ ({ id := "c1", ctype := "threshold", metric := some "m", op := some "gte",
           value := some (.num 1) } : Cond).ctype = "boolean"
      ∨ ({ id := "c1", ctype := "threshold", metric := some "m", op := some "gte",
           value := some (.num 1) } : Cond).ctype = "trend")
    ∧ (evaluateCondition
        { id := "c1", ctype := "threshold", metric := some "m", op := some "gte",
          value := some (.num 1) } [] [] {}).isOk = false :=
  And.intro (Or.inl rfl)
    (missing_metric_errors
      { id := "c1", ctype := "threshold", metric := some "m", op := some "gte",
        value := some (.num 1) } [] [] {} (Or.inl rfl)
      (fun _ _ _ => rfl) (fun h => absurd h (by decide)))

/-! ## Claim C7: schema v1 → v2 migration round-trip -/

/-- C7 counterexample: an input whose `sport` field is present but an empty
string fails the round-trip — `migrate_v1_to_v2` copies `sport` only when it
is truthy, so the migrated output drops the field instead of reproducing the
empty string verbatim. -/
theorem migrate_empty_sport_cex :
    (migrate_v1_to_v2
        { schema_version := some "1.0.0", rule_set_id := some "rs",
          sport := some "" }
        "generic_core" "generic" none).map (fun o => o.sport) = .ok none
    ∧ (none : Option String) ≠ some "" :=
  ⟨rfl, by simp⟩

/-! ## Claim C8: `build_step_ranges` step naming -/

/-- C8 counterexample: step names are `Step<n>` with `n` the phase's 1-based
position in the declaration order, not a counter over unnamed steps.  With a
named first phase and an unnamed second phase, the first unnamed kept phase
is mapped to `Step2`, and no step is named `Step1` — contradicting "unnamed
steps numbered sequentially from 1". -/
theorem build_step_ranges_numbering_cex :
    (buildStepRanges
        { phases := [
            { id := "a", frame_range := some (0, 1),
              legacy_step_name := some "Wind" },
            { id := "b", frame_range := some (2, 3) } ] }).2
      = [("a", "Wind"), ("b", "Step2")]
    ∧ ((buildStepRanges
        { phases := [
            { id := "a", frame_range := some (0, 1),
              legacy_step_name := some "Wind" },
            { id := "b", frame_range := some (2, 3) } ] }).1).lookup "Step1"
      = none :=
  ⟨rfl, rfl⟩

/-- C8 (amended): `build_step_ranges` processes phases in declaration order
and equals folding the described kept entries into the two tables: phases
with a falsy id or no explicit `frame_range` (event-window phases included)
are skipped; a kept phase maps its id to its legacy step name when present
and non-empty, else to `Step<n>` where `n` is the phase's 1-based position in
the declaration order (the counter advances on skipped and named phases too
— not a separate numbering of the unnamed steps, which is what the
counterexample refutes); each kept step records the inclusive range
`[start, end]`. -/
theorem build_step_ranges_desc (ruleSet : RuleSet) :
    buildStepRanges ruleSet
      = ((stepEntriesDesc 1 ruleSet.phases).foldl
           (fun acc e => upsert acc e.2.1 e.2.2) [],
         (stepEntriesDesc 1 ruleSet.phases).foldl
           (fun acc e => upsert acc e.1 e.2.1) []) := by
  unfold buildStepRanges
  suffices h : ∀ (phases : List Phase) (idx : ℕ)
      (a : List (String × List ℤ)) (b : List (String × String)),
      buildStepRangesGo phases idx a b
        = ((stepEntriesDesc idx phases).foldl
             (fun acc e => upsert acc e.2.1 e.2.2) a,
           (stepEntriesDesc idx phases).foldl
             (fun acc e => upsert acc e.1 e.2.1) b) by
    exact h ruleSet.phases 1 [] []
  intro phases
  induction phases with
  | nil => intro idx a b; rfl
  | cons p rest ih =>
    intro idx a b
    unfold buildStepRangesGo stepEntriesDesc
    cases hfr : p.frame_range with
    | none =>
      simp only [hfr]
      by_cases hid : p.id = ""
      · rw [if_pos hid]
        exact ih (idx + 1) a b
      · rw [if_neg hid]
        exact ih (idx + 1) a b
    | some se =>
      obtain ⟨st, en⟩ := se
      simp only [hfr]
      by_cases hid : p.id = ""
      · rw [if_pos hid, if_pos hid]
        exact ih (idx + 1) a b
      · rw [if_neg hid, if_neg hid]
        simp only [List.foldl_cons]
        exact ih (idx + 1) _ _

/-! ## Claim C10: plugin registry -/

theorem lookup_append_self {α : Type} {l : List (String × α)} {k : String}
    (h : l.any (fun p => p.1 = k) = false) (v : α) :
    (l ++ [(k, v)]).lookup k = some v := by
  induction l with
  | nil => simp [List.lookup]
  | cons p rest ih =>
    simp only [List.any_cons, Bool.or_eq_false_iff, decide_eq_false_iff_not] at h
    obtain ⟨h1, h2⟩ := h
    simp only [List.cons_append, List.lookup]
    rw [beq_false_of_ne (fun he => h1 he.symm)]
    exact ih h2

/-- C10 (amended): `register` rejects empty and whitespace-only names, and
names whose *stripped* form is already registered; `create` on an
unregistered name errors with the sorted list of all currently known plugin
names; and a successful `register(name, factory)` followed by
`create(name.strip())` — the stripped key, which differs from `name` itself
exactly when the name carries surrounding whitespace, as the counterexample
shows — returns the instance `factory()`. -/
theorem plugin_registry_contract (α : Type)
    (registry : List (String × (Unit → α))) (name : String)
    (factory : Unit → α) :
    (pyStrip name = "" → (registerPlugin registry name factory).isOk = false)
    ∧ (registry.any (fun p => p.1 = pyStrip name) = true →
        (registerPlugin registry name factory).isOk = false)
    ∧ (registry.lookup name = none →
        createPlugin registry name
            = .error (.notRegistered name (sortedNames registry))
          ∧ ∀ k, k ∈ sortedNames registry ↔ k ∈ registry.map (fun p => p.1))
    ∧ (∀ registry2, registerPlugin registry name factory = .ok registry2 →
        createPlugin registry2 (pyStrip name) = .ok (factory ())) := by
  refine ⟨?_, ?_, ?_, ?_⟩
  · intro h
    unfold registerPlugin
    by_cases hn : name = ""
    · rw [if_pos hn]
      rfl
    · rw [if_neg hn, if_pos h]
      rfl
  · intro h
    unfold registerPlugin
    by_cases hn : name = ""
    · rw [if_pos hn]
      rfl
    · rw [if_neg hn]
      by_cases hk : pyStrip name = ""
      · rw [if_pos hk]
        rfl
      · rw [if_neg hk, if_pos h]
        rfl
  · intro h
    unfold createPlugin
    rw [h]
    refine ⟨rfl, fun k => ?_⟩
    unfold sortedNames
    exact List.mem_mergeSort
  · intro registry2 h
    unfold registerPlugin at h
    by_cases hn : name = ""
    · rw [if_pos hn] at h
      exact absurd h (by simp)
    · rw [if_neg hn] at h
      by_cases hk : pyStrip name = ""
      · rw [if_pos hk] at h
        exact absurd h (by simp)
      · rw [if_neg hk] at h
        by_cases hdup : registry.any (fun p => p.1 = pyStrip name)
        · rw [if_pos hdup] at h
          exact absurd h (by simp)
        · rw [if_neg hdup] at h
          simp only [Except.ok.injEq] at h
          subst h
          unfold createPlugin
          rw [lookup_append_self (Bool.of_not_eq_true hdup) factory]

/-- C10 witness: registering `"gen"` (no surrounding whitespace) on an empty
registry succeeds, and `create` on the stripped name returns the factory's
instance; `create` on the empty registry errors naming no plugins. -/
theorem plugin_registry_contract_witness :
    registerPlugin ([] : List (String × (Unit → ℕ))) "gen" witnessFactory
        = .ok [("gen", witnessFactory)]
    ∧ createPlugin [("gen", witnessFactory)] (pyStrip "gen")
        = .ok (witnessFactory ())
    ∧ createPlugin ([] : List (String × (Unit → ℕ))) "gen"
        = .error (.notRegistered "gen" (sortedNames ([] : List (String × (Unit → ℕ))))) := by
  have hreg : registerPlugin ([] : List (String × (Unit → ℕ))) "gen" witnessFactory
      = .ok [("gen", witnessFactory)] := rfl
  refine ⟨hreg, ?_, ?_⟩
  · exact (plugin_registry_contract ℕ [] "gen" witnessFactory).2.2.2
      [("gen", witnessFactory)] hreg
  · exact ((plugin_registry_contract ℕ [] "gen" witnessFactory).2.2.1 rfl).1

/-- C10 counterexample: `register` strips the name before storing it but
`create` looks the name up unstripped, so a successful `register(name,
factory)` with a whitespace-padded name followed by `create(name)` raises
instead of returning the factory's instance. -/
theorem register_create_strip_mismatch_cex :
    (registerPlugin ([] : List (String × (Unit → ℕ))) " x " (fun _ => 0)).isOk
      = true
    ∧ ((registerPlugin ([] : List (String × (Unit → ℕ))) " x " (fun _ => 0)).bind
        (fun reg => createPlugin reg " x ")).isOk = false :=
  ⟨rfl, rfl⟩

end RulesEngine
